import Mathlib

/-!
Verification development for the cost-system backend's calculation engine.

The engine under study is the `Calculator` class (services/calculator.js):
`mergeParameters`, `validateCalculationParameters`, `performCalculations`,
`calculateForRange`, `calculateOperationsCost`, `getFabricCost`,
`applyPercentage`, `safeDivision`, `getValidNumber`, the `isValid*`
predicates and `roundTo2Decimals`, together with the constants from
config/constants.js and the error classes from utils/errors.js.

Modelling conventions:
* JavaScript numbers are modelled as rationals (`ℚ`).  The code never relies
  on float-specific behaviour except through `Number.EPSILON`, which is kept
  as the exact rational `2 ^ (-52)` inside `roundTo2Decimals`.
* A JavaScript value that may be absent, `undefined`, `null` or `NaN` is
  modelled as `JVal := Option ℚ` with `none` for all non-numeric cases.
  Every consumer in the engine (`getValidNumber`, `safeDivision`,
  `applyPercentage`, `roundTo2Decimals`) coerces all of these to `0`, and
  raw arithmetic on them (`jmul`, `jadd`) produces `NaN`, modelled as
  `none`, which the next coercion again turns into `0`.  (`Number(null)` is
  `0` rather than `NaN` in JavaScript; on the two raw-multiplication sites of
  `calculateForRange` both readings are erased by `getValidNumber` before any
  value is emitted, so the collapse is observationally harmless here.)
* JavaScript objects with a statically known key set (rates, fabric, the
  range maps, batch) are modelled as total functions from a key type into
  `Option JVal`, where the outer `Option` records key presence, so that the
  object-spread merge can distinguish an absent key from a key explicitly
  set to `null`.  The open-keyed `operations` object is modelled as an
  association list `List (String × OpMap)` in insertion order.
* `calculateFromInput` performs caching, fetches defaults from the ODS
  parser and logs; the cache and the log are outside the engine, and the
  defaults object is passed in explicitly.  Its error path is modelled by
  `Except`: the merged-parameter validation failure throws the repo's
  `CalculationError` class carrying the collected violation list.
-/

/-- A JavaScript value as seen by the engine's numeric plumbing: `some q` is
a finite number, `none` stands for absent / `undefined` / `null` / `NaN`. -/
abbrev JVal := Option ℚ

/-- Embedding of a plain number into `JVal`. -/
def jq (q : ℚ) : JVal := some q

/-- `Calculator.getValidNumber`: null, undefined, the empty string and `NaN`
become `0`, a number is returned unchanged. -/
def getValidNumber (v : JVal) : ℚ := v.getD 0

/-- Raw JavaScript multiplication as used on the untreated operands of
`calculateForRange` (`perUnitEur * batchSize`, `finalEur * rates.EUR`):
if either side is non-numeric the result is `NaN` (modelled `none`). -/
def jmul (a b : JVal) : JVal :=
  match a, b with
  | some x, some y => some (x * y)
  | _, _ => none

/-- Raw JavaScript addition on possibly non-numeric operands. -/
def jadd (a b : JVal) : JVal :=
  match a, b with
  | some x, some y => some (x + y)
  | _, _ => none

/-- The three supported currencies (`APP_CONSTANTS.SUPPORTED_CURRENCIES`). -/
inductive Currency
  | EUR
  | USD
  | GBP
deriving DecidableEq

/-- The three configured batch ranges (`APP_CONSTANTS.BATCH_RANGES`:
`'0-50'`, `'51-100'`, `'101-200'`). -/
inductive Range
  | r0_50
  | r51_100
  | r101_200
deriving DecidableEq

/-- The fabric price keys produced by the ODS defaults and accepted by the
request schema (`price_eur`, `metre_eur`, `unit_eur`). -/
inductive FabricKey
  | unit_eur
  | price_eur
  | metre_eur
deriving DecidableEq

/-- `APP_CONSTANTS.SUPPORTED_CURRENCIES` in source order. -/
def supportedCurrencies : List Currency := [Currency.EUR, Currency.USD, Currency.GBP]

/-- `APP_CONSTANTS.BATCH_RANGES` in source order. -/
def batchRanges : List Range := [Range.r0_50, Range.r51_100, Range.r101_200]

/-- The fabric keys in the order the ODS defaults object declares them. -/
def fabricKeys : List FabricKey := [FabricKey.price_eur, FabricKey.metre_eur, FabricKey.unit_eur]

/-- `APP_CONSTANTS.DEFAULT_BATCH`: `{'0-50': 25, '51-100': 75, '101-200': 150}`. -/
def defaultBatch : Range → ℚ
  | Range.r0_50 => 25
  | Range.r51_100 => 75
  | Range.r101_200 => 150

/-- `VALIDATION_CONSTANTS.MIN_POSITIVE_NUMBER = 0.001`. -/
def MIN_POSITIVE_NUMBER : ℚ := 1 / 1000

/-- `VALIDATION_CONSTANTS.MIN_PERCENTAGE = 0`. -/
def MIN_PERCENTAGE : ℚ := 0

/-- `VALIDATION_CONSTANTS.MAX_PERCENTAGE = 100`. -/
def MAX_PERCENTAGE : ℚ := 100

/-- `VALIDATION_CONSTANTS.MIN_BATCH_SIZE = 1`. -/
def MIN_BATCH_SIZE : ℚ := 1

/-- `VALIDATION_CONSTANTS.MAX_BATCH_SIZE = 10000`. -/
def MAX_BATCH_SIZE : ℚ := 10000

/-- `APP_CONSTANTS.PERCENTAGE_DIVISOR = 100`. -/
def PERCENTAGE_DIVISOR : ℚ := 100

/-- `Number.EPSILON = 2 ^ (-52)` as an exact rational. -/
def numberEpsilon : ℚ := 1 / 2 ^ 52

/-- One operation's per-range cost object (`operations[name]`); an absent
range key is `none`. -/
abbrev OpMap := Range → JVal

/-- One input layer (the ODS defaults object, the request body, or the
system overrides) as consumed by `Calculator.mergeParameters`.  For the
fixed-key objects the outer `Option` is key presence (so an explicit `null`
is `some none`), matching object-spread semantics. -/
structure Layer where
  rates : Currency → Option JVal
  fabric : FabricKey → Option JVal
  genel_gider : Range → Option JVal
  karlilik : Range → Option JVal
  KDV : JVal
  komisyon : JVal
  operations : List (String × OpMap)
  batch : Range → Option JVal

/-- The merged `CalculationParameters` produced by `mergeParameters`. -/
structure Params where
  rates : Currency → JVal
  fabric : FabricKey → JVal
  genel_gider : Range → JVal
  karlilik : Range → JVal
  KDV : ℚ
  komisyon : ℚ
  operations : List (String × OpMap)
  batch : Range → JVal

/-- Key lookup on an association-list object (`obj[key]`): the first entry
whose key matches, `none` when the key is absent. -/
def objGet (l : List (String × OpMap)) (k : String) : Option OpMap :=
  (l.find? fun e => e.1 == k).map (fun e => e.2)

/-- Object spread `{...base, ...upd}` on association-list objects: keys of
`base` keep their position but take the value from `upd` when `upd` has the
key; keys only in `upd` are appended in their order. -/
def mergeInto (base upd : List (String × OpMap)) : List (String × OpMap) :=
  (base.map fun e => (e.1, (objGet upd e.1).getD e.2)) ++
    upd.filter fun e => (objGet base e.1).isNone

/-- The three-layer operations spread of `mergeParameters`:
`{...defaults.operations, ...(input.operations || {}), ...(overrides.operations || {})}`. -/
def spreadOps (d i o : List (String × OpMap)) : List (String × OpMap) :=
  mergeInto (mergeInto d i) o

/-- Object spread for a fixed-key object field across the three layers,
last layer winning per present key, then read back as property access
(absent key gives `undefined`). -/
def spread3 {κ : Type} (d i o : κ → Option JVal) (k : κ) : JVal :=
  (((o k).orElse fun _ => (i k).orElse fun _ => d k).getD none)

/-- `Calculator.mergeParameters(defaults, input, overrides)`.  Mapping
fields are object spreads with overrides last; the scalar percentages use
`input.KDV ?? overrides.KDV ?? defaults.KDV` (user input first) passed
through `getValidNumber`; batch spreads the user layer over the engine
constant `DEFAULT_BATCH` and never consults the overrides layer. -/
def mergeParameters (defaults input overrides : Layer) : Params where
  rates := spread3 defaults.rates input.rates overrides.rates
  fabric := spread3 defaults.fabric input.fabric overrides.fabric
  genel_gider := spread3 defaults.genel_gider input.genel_gider overrides.genel_gider
  karlilik := spread3 defaults.karlilik input.karlilik overrides.karlilik
  KDV := getValidNumber ((input.KDV).orElse fun _ => (overrides.KDV).orElse fun _ => defaults.KDV)
  komisyon := getValidNumber ((input.komisyon).orElse fun _ => (overrides.komisyon).orElse fun _ => defaults.komisyon)
  operations := spreadOps defaults.operations input.operations overrides.operations
  batch := fun r => ((input.batch r).orElse fun _ => some (jq (defaultBatch r))).getD none

/-- `Calculator.isValidPositiveNumber`: coerced value at least `0.001`. -/
def isValidPositiveNumber (v : JVal) : Bool :=
  decide (MIN_POSITIVE_NUMBER ≤ getValidNumber v)

/-- `Calculator.isValidPercentage`: coerced value within `[0, 100]`. -/
def isValidPercentage (v : JVal) : Bool :=
  decide (MIN_PERCENTAGE ≤ getValidNumber v ∧ getValidNumber v ≤ MAX_PERCENTAGE)

/-- `Calculator.isValidBatchSize`: coerced value within `[1, 10000]`. -/
def isValidBatchSize (v : JVal) : Bool :=
  decide (MIN_BATCH_SIZE ≤ getValidNumber v ∧ getValidNumber v ≤ MAX_BATCH_SIZE)

/-- One entry of the `errors` array collected by
`validateCalculationParameters`; each constructor stands for the
corresponding `errors.push(...)` message. -/
inductive Violation
  | rate (c : Currency)
  | fabricPrice (k : FabricKey)
  | kdv
  | komisyon
  | batchSize (r : Range)
deriving DecidableEq

/-- `Calculator.validateCalculationParameters`: collects, in source order,
a violation for every unsupported exchange rate, every non-null fabric
price below the positive minimum, out-of-range KDV or komisyon, and every
out-of-bounds batch size.  The merged `genel_gider` and `karlilik` maps are
not examined. -/
def validateCalculationParameters (p : Params) : List Violation :=
  (supportedCurrencies.filterMap fun c =>
    if isValidPositiveNumber (p.rates c) then none else some (Violation.rate c)) ++
  (fabricKeys.filterMap fun k =>
    if (p.fabric k).isSome && !isValidPositiveNumber (p.fabric k) then
      some (Violation.fabricPrice k) else none) ++
  (if isValidPercentage (jq p.KDV) then [] else [Violation.kdv]) ++
  (if isValidPercentage (jq p.komisyon) then [] else [Violation.komisyon]) ++
  (batchRanges.filterMap fun r =>
    if isValidBatchSize (p.batch r) then none else some (Violation.batchSize r))

/-- The error classes of utils/errors.js that the calculation path can
surface: `ValidationError` is thrown only by the request middleware,
`CalculationError` by the engine. -/
inductive ErrClass
  | ValidationError
  | CalculationError
deriving DecidableEq

/-- The error thrown by the engine: its class and the collected violation
list (the source joins the messages into the `CalculationError` text). -/
structure ThrownError where
  cls : ErrClass
  violations : List Violation
deriving DecidableEq

/-- JavaScript `a || b` on already-coerced numbers: `a` when truthy
(non-zero), else `b`. -/
def jsOr (a b : ℚ) : ℚ := if a ≠ 0 then a else b

/-- `Calculator.getFabricCost`: `getValidNumber(fabric.unit_eur) ||
getValidNumber(fabric.price_eur) || 0`. -/
def getFabricCost (fabric : FabricKey → JVal) : ℚ :=
  jsOr (getValidNumber (fabric FabricKey.unit_eur))
    (jsOr (getValidNumber (fabric FabricKey.price_eur)) 0)

/-- `Calculator.applyPercentage(base, percentage) = (validBase *
validPercentage) / PERCENTAGE_DIVISOR`. -/
def applyPercentage (base percentage : JVal) : ℚ :=
  getValidNumber base * getValidNumber percentage / PERCENTAGE_DIVISOR

/-- `Calculator.safeDivision`: both operands are coerced; a zero
denominator yields `0` (with a warning log) instead of dividing. -/
def safeDivision (numerator denominator : JVal) : ℚ :=
  if getValidNumber denominator = 0 then 0
  else getValidNumber numerator / getValidNumber denominator

/-- JavaScript `Math.round`: round half toward positive infinity. -/
def mathRound (x : ℚ) : ℤ := ⌊x + 1 / 2⌋

/-- `Calculator.roundTo2Decimals(value) = Math.round((getValidNumber(value)
+ Number.EPSILON) * 100) / 100`. -/
def roundTo2Decimals (value : JVal) : ℚ :=
  (mathRound ((getValidNumber value + numberEpsilon) * 100) : ℚ) / 100

/-- `Calculator.calculateOperationsCost`: fold over the operation entries,
adding the coerced cost stored under the range key (absent keys add 0). -/
def calculateOperationsCost (range : Range) (operations : List (String × OpMap)) : ℚ :=
  operations.foldl (fun total e => total + getValidNumber (e.2 range)) 0

/-- `batchSize` binding of `calculateForRange`: `params.batch[range]`. -/
def batchSizeOf (p : Params) (r : Range) : JVal := p.batch r

/-- `totalOpsTry` binding of `calculateForRange`. -/
def totalOpsTryOf (p : Params) (r : Range) : ℚ :=
  calculateOperationsCost r p.operations

/-- `perUnitOpsTry = safeDivision(totalOpsTry, batchSize)`. -/
def perUnitOpsTryOf (p : Params) (r : Range) : ℚ :=
  safeDivision (jq (totalOpsTryOf p r)) (batchSizeOf p r)

/-- `perUnitOpsEur = safeDivision(perUnitOpsTry, params.rates.EUR)`. -/
def perUnitOpsEurOf (p : Params) (r : Range) : ℚ :=
  safeDivision (jq (perUnitOpsTryOf p r)) (p.rates Currency.EUR)

/-- `fabricCostEur = getFabricCost(params.fabric)`. -/
def fabricCostEurOf (p : Params) : ℚ := getFabricCost p.fabric

/-- `perUnitEur = fabricCostEur + perUnitOpsEur`. -/
def perUnitEurOf (p : Params) (r : Range) : ℚ :=
  fabricCostEurOf p + perUnitOpsEurOf p r

/-- `hamMaliyetEur = perUnitEur * batchSize` (raw multiplication on the
possibly non-numeric batch value). -/
def hamMaliyetEurOf (p : Params) (r : Range) : JVal :=
  jmul (jq (perUnitEurOf p r)) (batchSizeOf p r)

/-- `genelGiderEur = applyPercentage(hamMaliyetEur, params.genel_gider[range])`. -/
def genelGiderEurOf (p : Params) (r : Range) : ℚ :=
  applyPercentage (hamMaliyetEurOf p r) (p.genel_gider r)

/-- `karEur = applyPercentage(hamMaliyetEur, params.karlilik[range])`. -/
def karEurOf (p : Params) (r : Range) : ℚ :=
  applyPercentage (hamMaliyetEurOf p r) (p.karlilik r)

/-- `taxableEur = hamMaliyetEur + genelGiderEur + karEur` (raw addition). -/
def taxableEurOf (p : Params) (r : Range) : JVal :=
  jadd (jadd (hamMaliyetEurOf p r) (jq (genelGiderEurOf p r))) (jq (karEurOf p r))

/-- `kdvEur = applyPercentage(taxableEur, params.KDV)`. -/
def kdvEurOf (p : Params) (r : Range) : ℚ :=
  applyPercentage (taxableEurOf p r) (jq p.KDV)

/-- `commissionEur = applyPercentage(taxableEur, params.komisyon)`. -/
def commissionEurOf (p : Params) (r : Range) : ℚ :=
  applyPercentage (taxableEurOf p r) (jq p.komisyon)

/-- `finalEur = taxableEur + kdvEur + commissionEur` (raw addition). -/
def finalEurOf (p : Params) (r : Range) : JVal :=
  jadd (jadd (taxableEurOf p r) (jq (kdvEurOf p r))) (jq (commissionEurOf p r))

/-- `finalTry = finalEur * params.rates.EUR` (raw multiplication). -/
def finalTryOf (p : Params) (r : Range) : JVal :=
  jmul (finalEurOf p r) (p.rates Currency.EUR)

/-- `finalUsd = safeDivision(finalTry, params.rates.USD)`. -/
def finalUsdOf (p : Params) (r : Range) : ℚ :=
  safeDivision (finalTryOf p r) (p.rates Currency.USD)

/-- `finalGbp = safeDivision(finalTry, params.rates.GBP)`. -/
def finalGbpOf (p : Params) (r : Range) : ℚ :=
  safeDivision (finalTryOf p r) (p.rates Currency.GBP)

/-- `perUnitFinalEur = safeDivision(finalEur, batchSize)`. -/
def perUnitFinalEurOf (p : Params) (r : Range) : ℚ :=
  safeDivision (finalEurOf p r) (batchSizeOf p r)

/-- `perUnitFinalTry = safeDivision(finalTry, batchSize)`. -/
def perUnitFinalTryOf (p : Params) (r : Range) : ℚ :=
  safeDivision (finalTryOf p r) (batchSizeOf p r)

/-- `perUnitFinalUsd = safeDivision(finalUsd, batchSize)`. -/
def perUnitFinalUsdOf (p : Params) (r : Range) : ℚ :=
  safeDivision (jq (finalUsdOf p r)) (batchSizeOf p r)

/-- `perUnitFinalGbp = safeDivision(finalGbp, batchSize)`. -/
def perUnitFinalGbpOf (p : Params) (r : Range) : ℚ :=
  safeDivision (jq (finalGbpOf p r)) (batchSizeOf p r)

/-- The object returned by `calculateForRange` (the `calculationDate`
timestamp is metadata outside the numeric model and is omitted). -/
structure RangeResult where
  batchSize : JVal
  fabricCostEur : ℚ
  perUnitOpsTry : ℚ
  perUnitOpsEur : ℚ
  perUnitEur : ℚ
  hamMaliyetEur : ℚ
  genelGiderEur : ℚ
  karEur : ℚ
  taxableEur : ℚ
  kdvEur : ℚ
  commissionEur : ℚ
  finalEur : ℚ
  finalTry : ℚ
  finalUsd : ℚ
  finalGbp : ℚ
  perUnitFinalEur : ℚ
  perUnitFinalTry : ℚ
  perUnitFinalUsd : ℚ
  perUnitFinalGbp : ℚ
  range : Range
deriving DecidableEq

/-- `Calculator.calculateForRange(range, params)`: computes the
full-precision intermediates above and rounds every monetary field to two
decimals on output. -/
def calculateForRange (r : Range) (p : Params) : RangeResult where
  batchSize := batchSizeOf p r
  fabricCostEur := roundTo2Decimals (jq (fabricCostEurOf p))
  perUnitOpsTry := roundTo2Decimals (jq (perUnitOpsTryOf p r))
  perUnitOpsEur := roundTo2Decimals (jq (perUnitOpsEurOf p r))
  perUnitEur := roundTo2Decimals (jq (perUnitEurOf p r))
  hamMaliyetEur := roundTo2Decimals (hamMaliyetEurOf p r)
  genelGiderEur := roundTo2Decimals (jq (genelGiderEurOf p r))
  karEur := roundTo2Decimals (jq (karEurOf p r))
  taxableEur := roundTo2Decimals (taxableEurOf p r)
  kdvEur := roundTo2Decimals (jq (kdvEurOf p r))
  commissionEur := roundTo2Decimals (jq (commissionEurOf p r))
  finalEur := roundTo2Decimals (finalEurOf p r)
  finalTry := roundTo2Decimals (finalTryOf p r)
  finalUsd := roundTo2Decimals (jq (finalUsdOf p r))
  finalGbp := roundTo2Decimals (jq (finalGbpOf p r))
  perUnitFinalEur := roundTo2Decimals (jq (perUnitFinalEurOf p r))
  perUnitFinalTry := roundTo2Decimals (jq (perUnitFinalTryOf p r))
  perUnitFinalUsd := roundTo2Decimals (jq (perUnitFinalUsdOf p r))
  perUnitFinalGbp := roundTo2Decimals (jq (perUnitFinalGbpOf p r))
  range := r

/-- `Calculator.performCalculations`: one `RangeResult` per configured
range.  The source wraps each range in try/catch and rethrows a
`CalculationError` naming the range, but `calculateForRange` is total on
numeric inputs, so the model is a total map over the ranges. -/
def performCalculations (p : Params) : Range → RangeResult :=
  fun r => calculateForRange r p

/-- The success payload of `calculateFromInput`: the merged parameters and
the per-range result map (caching metadata omitted). -/
structure Output where
  params : Params
  result : Range → RangeResult

/-- `Calculator.calculateFromInput` with the ODS defaults passed in
explicitly (the source fetches them and consults a cache first): merge,
validate — throwing a `CalculationError` listing every violation — then
compute all ranges. -/
def calculateFromInput (defaults input overrides : Layer) : Except ThrownError Output :=
  let params := mergeParameters defaults input overrides
  let errors := validateCalculationParameters params
  if errors = [] then
    Except.ok { params := params, result := performCalculations params }
  else
    Except.error { cls := ErrClass.CalculationError, violations := errors }

/-- Projection helper: the computed result for one range, `none` when the
calculation threw. -/
def calcResult (defaults input overrides : Layer) (r : Range) : Option RangeResult :=
  match calculateFromInput defaults input overrides with
  | Except.ok out => some (out.result r)
  | Except.error _ => none

/-- Whether the calculation completed without throwing. -/
def calcSucceeds (defaults input overrides : Layer) : Bool :=
  match calculateFromInput defaults input overrides with
  | Except.ok _ => true
  | Except.error _ => false

/-! ### General lemmas about the numeric plumbing -/

lemma getValidNumber_jq (q : ℚ) : getValidNumber (jq q) = q := rfl

lemma getValidNumber_none : getValidNumber none = 0 := rfl

lemma mathRound_eval (x : ℚ) (k : ℤ) (h1 : (k : ℚ) ≤ x + 1 / 2) (h2 : x + 1 / 2 < k + 1) :
    mathRound x = k := by
  rw [mathRound, Int.floor_eq_iff]
  exact ⟨h1, h2⟩

lemma roundTo2_eval (v : ℚ) (k : ℤ)
    (h1 : (k : ℚ) ≤ (v + numberEpsilon) * 100 + 1 / 2)
    (h2 : (v + numberEpsilon) * 100 + 1 / 2 < k + 1) :
    roundTo2Decimals (jq v) = (k : ℚ) / 100 := by
  rw [roundTo2Decimals]
  have hv : getValidNumber (jq v) = v := rfl
  rw [hv, mathRound_eval _ k h1 h2]

lemma roundTo2_zero : roundTo2Decimals (jq 0) = 0 := by
  rw [roundTo2_eval 0 0 (by norm_num [numberEpsilon]) (by norm_num [numberEpsilon])]
  norm_num

lemma roundTo2_nonneg (v : JVal) (h : 0 ≤ getValidNumber v) : 0 ≤ roundTo2Decimals v := by
  rw [roundTo2Decimals]
  have hfloor : (0 : ℤ) ≤ mathRound ((getValidNumber v + numberEpsilon) * 100) := by
    rw [mathRound]
    apply Int.le_floor.mpr
    have heps : (0 : ℚ) ≤ numberEpsilon := by norm_num [numberEpsilon]
    push_cast
    nlinarith
  positivity

lemma safeDivision_nonneg (n d : JVal) (hn : 0 ≤ getValidNumber n) (hd : 0 ≤ getValidNumber d) :
    0 ≤ safeDivision n d := by
  rw [safeDivision]
  split
  · exact le_refl 0
  · exact div_nonneg hn hd

lemma applyPercentage_nonneg (b q : JVal) (hb : 0 ≤ getValidNumber b) (hq : 0 ≤ getValidNumber q) :
    0 ≤ applyPercentage b q := by
  rw [applyPercentage, PERCENTAGE_DIVISOR]
  positivity

lemma getValidNumber_jmul_nonneg (a b : JVal) (ha : 0 ≤ getValidNumber a)
    (hb : 0 ≤ getValidNumber b) : 0 ≤ getValidNumber (jmul a b) := by
  match a, b with
  | some x, some y => exact mul_nonneg ha hb
  | some _, none => exact le_refl 0
  | none, some _ => exact le_refl 0
  | none, none => exact le_refl 0

lemma getValidNumber_jadd_nonneg (a b : JVal) (ha : 0 ≤ getValidNumber a)
    (hb : 0 ≤ getValidNumber b) : 0 ≤ getValidNumber (jadd a b) := by
  match a, b with
  | some x, some y => exact add_nonneg ha hb
  | some _, none => exact le_refl 0
  | none, some _ => exact le_refl 0
  | none, none => exact le_refl 0

lemma getFabricCost_nonneg (fab : FabricKey → JVal)
    (hfab : ∀ k, (fab k).isSome → MIN_POSITIVE_NUMBER ≤ getValidNumber (fab k)) :
    0 ≤ getFabricCost fab := by
  have hkey : ∀ k, 0 ≤ getValidNumber (fab k) := by
    intro k
    match hk : fab k with
    | none => exact le_refl 0
    | some q =>
      have := hfab k (by rw [hk]; rfl)
      rw [hk, MIN_POSITIVE_NUMBER] at this
      calc (0 : ℚ) ≤ 1 / 1000 := by norm_num
        _ ≤ _ := this
  rw [getFabricCost, jsOr, jsOr]
  split
  · exact hkey FabricKey.unit_eur
  · split
    · exact hkey FabricKey.price_eur
    · exact le_refl 0

/-! ### Lemmas about association-list objects and spreads -/

lemma objGet_nil (k : String) : objGet [] k = none := rfl

lemma objGet_cons (e : String × OpMap) (l : List (String × OpMap)) (k : String) :
    objGet (e :: l) k = if e.1 == k then some e.2 else objGet l k := by
  by_cases he : e.1 == k <;> simp [objGet, List.find?_cons, he]

lemma objGet_append (l1 l2 : List (String × OpMap)) (k : String) :
    objGet (l1 ++ l2) k = (objGet l1 k).orElse fun _ => objGet l2 k := by
  induction l1 with
  | nil => simp [objGet_nil, Option.orElse]
  | cons e t ih =>
    rw [List.cons_append, objGet_cons, objGet_cons]
    split
    · rfl
    · exact ih

lemma objGet_mapUpd (b u : List (String × OpMap)) (k : String) :
    objGet (b.map fun e => (e.1, (objGet u e.1).getD e.2)) k
      = (objGet b k).map fun v => (objGet u k).getD v := by
  induction b with
  | nil => rfl
  | cons e t ih =>
    by_cases he : e.1 == k
    · have hek : e.1 = k := eq_of_beq he
      subst hek
      simp [objGet_cons]
    · have hek : (e.1 == k) = false := by simpa using he
      simp [objGet_cons, hek, ih]

lemma objGet_filterNotInBase (b u : List (String × OpMap)) (k : String)
    (hk : objGet b k = none) :
    objGet (u.filter fun e => (objGet b e.1).isNone) k = objGet u k := by
  induction u with
  | nil => rfl
  | cons e t ih =>
    by_cases he : e.1 == k
    · have hek : e.1 = k := eq_of_beq he
      subst hek
      have hb : (objGet b e.1).isNone = true := by rw [hk]; rfl
      rw [List.filter_cons, if_pos hb, objGet_cons, objGet_cons]
      simp
    · have hek : (e.1 == k) = false := by simpa using he
      rw [List.filter_cons]
      split
      · rw [objGet_cons, if_neg (by simp [hek]), ih]
        rw [objGet_cons, if_neg (by simp [hek])]
      · rw [ih, objGet_cons, if_neg (by simp [hek])]

lemma objGet_mergeInto (b u : List (String × OpMap)) (k : String) :
    objGet (mergeInto b u) k = (objGet u k).orElse fun _ => objGet b k := by
  rw [mergeInto, objGet_append, objGet_mapUpd]
  cases hb : objGet b k with
  | none =>
    rw [objGet_filterNotInBase b u k hb]
    cases objGet u k <;> rfl
  | some v =>
    cases hu : objGet u k with
    | none => rfl
    | some w => rfl

lemma objGet_spreadOps (d i o : List (String × OpMap)) (k : String) :
    objGet (spreadOps d i o) k
      = (objGet o k).orElse fun _ => (objGet i k).orElse fun _ => objGet d k := by
  rw [spreadOps, objGet_mergeInto, objGet_mergeInto]

/-! ### Lemmas about the operations fold and the validator -/

lemma calculateOperationsCost_nonneg (r : Range) (l : List (String × OpMap))
    (h : ∀ e ∈ l, 0 ≤ getValidNumber (e.2 r)) : 0 ≤ calculateOperationsCost r l := by
  rw [calculateOperationsCost]
  have key : ∀ init : ℚ, 0 ≤ init →
      0 ≤ l.foldl (fun total e => total + getValidNumber (e.2 r)) init := by
    induction l with
    | nil => intro init h0; simpa using h0
    | cons e t ih =>
      intro init h0
      rw [List.foldl_cons]
      exact ih (fun x hx => h x (List.mem_cons_of_mem e hx)) _
        (add_nonneg h0 (h e (List.mem_cons_self e t)))
  exact key 0 (le_refl 0)

lemma calculateOperationsCost_congr (r : Range) (l l' : List (String × OpMap))
    (h : List.Forall₂ (fun e e' => getValidNumber (e.2 r) = getValidNumber (e'.2 r)) l l') :
    calculateOperationsCost r l = calculateOperationsCost r l' := by
  rw [calculateOperationsCost, calculateOperationsCost]
  have key : ∀ init : ℚ,
      l.foldl (fun total e => total + getValidNumber (e.2 r)) init
        = l'.foldl (fun total e => total + getValidNumber (e.2 r)) init := by
    induction h with
    | nil => intro init; rfl
    | cons he ht ih =>
      intro init
      rw [List.foldl_cons, List.foldl_cons, he]
      exact ih _
  exact key 0


lemma ifNilList (c : Prop) [Decidable c] (x : Violation) :
    ((if c then ([] : List Violation) else [x]) = []) ↔ c := by
  by_cases h : c <;> simp [h]

lemma ifValidNone {α : Type} (c : Prop) [Decidable c] (x : α) :
    ((if c then (none : Option α) else some x) = none) ↔ c := by
  by_cases h : c <;> simp [h]

lemma ifBadNone {α : Type} (c : Prop) [Decidable c] (x : α) :
    ((if c then some x else (none : Option α)) = none) ↔ ¬c := by
  by_cases h : c <;> simp [h]

lemma validate_eq_nil (p : Params) :
    validateCalculationParameters p = [] ↔
      (∀ c, isValidPositiveNumber (p.rates c) = true) ∧
      (∀ k, (p.fabric k).isSome → isValidPositiveNumber (p.fabric k) = true) ∧
      isValidPercentage (jq p.KDV) = true ∧
      isValidPercentage (jq p.komisyon) = true ∧
      (∀ r, isValidBatchSize (p.batch r) = true) := by
  rw [validateCalculationParameters]
  simp only [List.append_eq_nil, List.filterMap_eq_nil_iff, List.forall_mem_cons,
    List.not_mem_nil, false_implies, implies_true, and_true, ifNilList, ifValidNone, ifBadNone,
    supportedCurrencies, fabricKeys, batchRanges, Bool.and_eq_true, Bool.not_eq_true', not_and,
    Bool.not_eq_false]
  constructor
  · intro h
    refine ⟨fun c => ?_, fun k => ?_, ?_, ?_, fun r => ?_⟩
    · cases c <;> tauto
    · cases k <;> tauto
    · tauto
    · tauto
    · cases r <;> tauto
  · intro h
    tauto

lemma ifValidSomeEq {α : Type} (c : Prop) [Decidable c] (x y : α) :
    ((if c then (none : Option α) else some x) = some y) ↔ (¬c ∧ x = y) := by
  by_cases h : c <;> simp [h]

lemma ifBadSomeEq {α : Type} (c : Prop) [Decidable c] (x y : α) :
    ((if c then some x else (none : Option α)) = some y) ↔ (c ∧ x = y) := by
  by_cases h : c <;> simp [h]

lemma mem_ifNilList (c : Prop) [Decidable c] (x y : Violation) :
    (y ∈ (if c then ([] : List Violation) else [x])) ↔ (¬c ∧ y = x) := by
  by_cases h : c <;> simp [h]

lemma mem_validate_rate (p : Params) (c : Currency) :
    Violation.rate c ∈ validateCalculationParameters p ↔
      isValidPositiveNumber (p.rates c) = false := by
  cases c <;>
    simp [validateCalculationParameters, supportedCurrencies, fabricKeys, batchRanges,
      ifValidSomeEq, ifBadSomeEq, mem_ifNilList]

lemma mem_validate_fabric (p : Params) (k : FabricKey) :
    Violation.fabricPrice k ∈ validateCalculationParameters p ↔
      ((p.fabric k).isSome ∧ isValidPositiveNumber (p.fabric k) = false) := by
  cases k <;>
    simp [validateCalculationParameters, supportedCurrencies, fabricKeys, batchRanges,
      ifValidSomeEq, ifBadSomeEq, mem_ifNilList]

lemma mem_validate_kdv (p : Params) :
    Violation.kdv ∈ validateCalculationParameters p ↔
      isValidPercentage (jq p.KDV) = false := by
  rw [validateCalculationParameters]
  simp [supportedCurrencies, fabricKeys, batchRanges, ifValidSomeEq, ifBadSomeEq, mem_ifNilList]

lemma mem_validate_komisyon (p : Params) :
    Violation.komisyon ∈ validateCalculationParameters p ↔
      isValidPercentage (jq p.komisyon) = false := by
  rw [validateCalculationParameters]
  simp [supportedCurrencies, fabricKeys, batchRanges, ifValidSomeEq, ifBadSomeEq, mem_ifNilList]

lemma mem_validate_batch (p : Params) (r : Range) :
    Violation.batchSize r ∈ validateCalculationParameters p ↔
      isValidBatchSize (p.batch r) = false := by
  cases r <;>
    simp [validateCalculationParameters, supportedCurrencies, fabricKeys, batchRanges,
      ifValidSomeEq, ifBadSomeEq, mem_ifNilList]

/-! ### Claims about parameter merging -/

lemma spread3_top {κ : Type} {d i o : κ → Option JVal} {k : κ} {v : JVal}
    (h : o k = some v) : spread3 d i o k = v := by
  simp [spread3, h]

lemma spread3_mid {κ : Type} {d i o : κ → Option JVal} {k : κ} {v : JVal}
    (h1 : o k = none) (h2 : i k = some v) : spread3 d i o k = v := by
  simp [spread3, h1, h2, Option.orElse]

lemma spread3_bot {κ : Type} {d i o : κ → Option JVal} {k : κ} {v : JVal}
    (h1 : o k = none) (h2 : i k = none) (h3 : d k = some v) : spread3 d i o k = v := by
  simp [spread3, h1, h2, h3, Option.orElse]

/-- A layer with nothing supplied: every key absent, no operations. -/
def emptyLayer : Layer where
  rates := fun _ => none
  fabric := fun _ => none
  genel_gider := fun _ => none
  karlilik := fun _ => none
  KDV := none
  komisyon := none
  operations := []
  batch := fun _ => none

/-- C1 counterexample defaults layer: KDV 18 present. -/
def c1Defaults : Layer := { emptyLayer with KDV := some 18 }

/-- C1 counterexample user layer: KDV 10 and batch 0-50 = 30 present. -/
def c1Input : Layer :=
  { emptyLayer with
      KDV := some 10
      batch := fun r => if r = Range.r0_50 then some (some 30) else none }

/-- C1 counterexample overrides layer: KDV 20 and batch 0-50 = 40 present. -/
def c1Overrides : Layer :=
  { emptyLayer with
      KDV := some 20
      batch := fun r => if r = Range.r0_50 then some (some 40) else none }

/-- C1, counterexample: with KDV present in all three layers (defaults 18,
user 10, overrides 20) the merged KDV is the user value 10, not the
system-override value 20 the claim requires; likewise the merged batch size
for range 0-50 is the user value 30, the overrides layer being ignored by
the batch merge. -/
theorem c1_merge_precedence_counterexample :
    (mergeParameters c1Defaults c1Input c1Overrides).KDV = 10 ∧ (10 : ℚ) ≠ 20 ∧
    (mergeParameters c1Defaults c1Input c1Overrides).batch Range.r0_50 = some 30 ∧
    (30 : ℚ) ≠ 40 := by
  refine ⟨rfl, by norm_num, rfl, by norm_num⟩

/-- C1, amended: per-key precedence for the mapping fields rates, fabric,
overhead (genel_gider), profit (karlilik) and operations is overrides over
user input over defaults, as the claim states; but the scalar percentages
KDV and komisyon resolve user input first (`input ?? overrides ??
defaults`), and the batch map merges the user layer over the engine
constant `DEFAULT_BATCH`, ignoring the overrides layer entirely. -/
theorem c1_merge_precedence_amended (d i o : Layer) :
    (∀ c v, o.rates c = some v → (mergeParameters d i o).rates c = v) ∧
    (∀ c v, o.rates c = none → i.rates c = some v → (mergeParameters d i o).rates c = v) ∧
    (∀ c v, o.rates c = none → i.rates c = none → d.rates c = some v →
      (mergeParameters d i o).rates c = v) ∧
    (∀ k v, o.fabric k = some v → (mergeParameters d i o).fabric k = v) ∧
    (∀ k v, o.fabric k = none → i.fabric k = some v → (mergeParameters d i o).fabric k = v) ∧
    (∀ k v, o.fabric k = none → i.fabric k = none → d.fabric k = some v →
      (mergeParameters d i o).fabric k = v) ∧
    (∀ r v, o.genel_gider r = some v → (mergeParameters d i o).genel_gider r = v) ∧
    (∀ r v, o.genel_gider r = none → i.genel_gider r = some v →
      (mergeParameters d i o).genel_gider r = v) ∧
    (∀ r v, o.genel_gider r = none → i.genel_gider r = none → d.genel_gider r = some v →
      (mergeParameters d i o).genel_gider r = v) ∧
    (∀ r v, o.karlilik r = some v → (mergeParameters d i o).karlilik r = v) ∧
    (∀ r v, o.karlilik r = none → i.karlilik r = some v →
      (mergeParameters d i o).karlilik r = v) ∧
    (∀ r v, o.karlilik r = none → i.karlilik r = none → d.karlilik r = some v →
      (mergeParameters d i o).karlilik r = v) ∧
    (∀ n m, objGet o.operations n = some m →
      objGet (mergeParameters d i o).operations n = some m) ∧
    (∀ n m, objGet o.operations n = none → objGet i.operations n = some m →
      objGet (mergeParameters d i o).operations n = some m) ∧
    (∀ n m, objGet o.operations n = none → objGet i.operations n = none →
      objGet d.operations n = some m → objGet (mergeParameters d i o).operations n = some m) ∧
    (∀ q, i.KDV = some q → (mergeParameters d i o).KDV = q) ∧
    (∀ q, i.KDV = none → o.KDV = some q → (mergeParameters d i o).KDV = q) ∧
    (i.KDV = none → o.KDV = none → (mergeParameters d i o).KDV = getValidNumber d.KDV) ∧
    (∀ q, i.komisyon = some q → (mergeParameters d i o).komisyon = q) ∧
    (∀ q, i.komisyon = none → o.komisyon = some q → (mergeParameters d i o).komisyon = q) ∧
    (i.komisyon = none → o.komisyon = none →
      (mergeParameters d i o).komisyon = getValidNumber d.komisyon) ∧
    (∀ r v, i.batch r = some v → (mergeParameters d i o).batch r = v) ∧
    (∀ r, i.batch r = none → (mergeParameters d i o).batch r = jq (defaultBatch r)) := by
  refine ⟨fun c v h => spread3_top h, fun c v h1 h2 => spread3_mid h1 h2,
    fun c v h1 h2 h3 => spread3_bot h1 h2 h3,
    fun k v h => spread3_top h, fun k v h1 h2 => spread3_mid h1 h2,
    fun k v h1 h2 h3 => spread3_bot h1 h2 h3,
    fun r v h => spread3_top h, fun r v h1 h2 => spread3_mid h1 h2,
    fun r v h1 h2 h3 => spread3_bot h1 h2 h3,
    fun r v h => spread3_top h, fun r v h1 h2 => spread3_mid h1 h2,
    fun r v h1 h2 h3 => spread3_bot h1 h2 h3,
    ?_, ?_, ?_, ?_, ?_, ?_, ?_, ?_, ?_, ?_, ?_⟩
  · intro n m h
    have := objGet_spreadOps d.operations i.operations o.operations n
    rw [h] at this
    exact this
  · intro n m h1 h2
    have := objGet_spreadOps d.operations i.operations o.operations n
    rw [h1, h2] at this
    exact this
  · intro n m h1 h2 h3
    have := objGet_spreadOps d.operations i.operations o.operations n
    rw [h1, h2, h3] at this
    exact this
  · intro q h
    show getValidNumber ((i.KDV).orElse fun _ => (o.KDV).orElse fun _ => d.KDV) = q
    rw [h]
    rfl
  · intro q h1 h2
    show getValidNumber ((i.KDV).orElse fun _ => (o.KDV).orElse fun _ => d.KDV) = q
    rw [h1, h2]
    rfl
  · intro h1 h2
    show getValidNumber ((i.KDV).orElse fun _ => (o.KDV).orElse fun _ => d.KDV)
      = getValidNumber d.KDV
    rw [h1, h2]
    rfl
  · intro q h
    show getValidNumber ((i.komisyon).orElse fun _ => (o.komisyon).orElse fun _ => d.komisyon) = q
    rw [h]
    rfl
  · intro q h1 h2
    show getValidNumber ((i.komisyon).orElse fun _ => (o.komisyon).orElse fun _ => d.komisyon) = q
    rw [h1, h2]
    rfl
  · intro h1 h2
    show getValidNumber ((i.komisyon).orElse fun _ => (o.komisyon).orElse fun _ => d.komisyon)
      = getValidNumber d.komisyon
    rw [h1, h2]
    rfl
  · intro r v h
    show ((i.batch r).orElse fun _ => some (jq (defaultBatch r))).getD none = v
    rw [h]
    rfl
  · intro r h
    show ((i.batch r).orElse fun _ => some (jq (defaultBatch r))).getD none = jq (defaultBatch r)
    rw [h]
    rfl

/-- C1, witness: the amended precedence applied to the concrete layers of
the counterexample (user KDV 10 wins over override 20; user batch 30 wins;
an override-only rate value wins for the rates map). -/
theorem c1_merge_precedence_witness :
    (mergeParameters c1Defaults c1Input c1Overrides).KDV = 10 ∧
    (mergeParameters c1Defaults c1Input c1Overrides).batch Range.r0_50 = some 30 := by
  obtain ⟨-, -, -, -, -, -, -, -, -, -, -, -, -, -, -, hkdv, -, -, -, -, -, hbatch, -⟩ :=
    c1_merge_precedence_amended c1Defaults c1Input c1Overrides
  exact ⟨hkdv 10 rfl, hbatch Range.r0_50 (some 30) rfl⟩

/-- The user-supplied operation map of the C10 witness: only range 51-100
is given a cost. -/
def c10PartialMap : OpMap := fun r => if r = Range.r51_100 then some 12 else none

/-- C10 witness defaults layer: operation kesim costs 40 in every range. -/
def c10Defaults : Layer :=
  { emptyLayer with operations := [(("kesim" : String), fun _ => some 40)] }

/-- C10 witness user layer: operation kesim is resupplied with only the
51-100 cost. -/
def c10Input : Layer :=
  { emptyLayer with operations := [(("kesim" : String), c10PartialMap)] }

/-- C10: the operations merge replaces an operation wholesale.  If a name
is present in the user layer and absent from the overrides layer, the
merged entry is exactly the user-supplied range map, independent of the
defaults (the statement quantifies over every defaults layer); if the name
is present in the overrides layer, the merged entry is exactly the
overrides map.  Any range key the caller omitted reads back as `none`, so
`calculateOperationsCost`'s summand `getValidNumber` contributes `0` for
that range even when the defaults define a nonzero cost there. -/
theorem c10_operations_wholesale (d i o : Layer) (n : String) :
    (∀ m, objGet o.operations n = none → objGet i.operations n = some m →
      objGet (mergeParameters d i o).operations n = some m ∧
        ∀ r, m r = none → getValidNumber (m r) = 0) ∧
    (∀ m, objGet o.operations n = some m →
      objGet (mergeParameters d i o).operations n = some m ∧
        ∀ r, m r = none → getValidNumber (m r) = 0) := by
  constructor
  · intro m h1 h2
    refine ⟨?_, fun r hr => by rw [hr]; rfl⟩
    have h := objGet_spreadOps d.operations i.operations o.operations n
    rw [h1, h2] at h
    exact h
  · intro m h1
    refine ⟨?_, fun r hr => by rw [hr]; rfl⟩
    have h := objGet_spreadOps d.operations i.operations o.operations n
    rw [h1] at h
    exact h

/-- C10, witness: with defaults giving operation kesim cost 40 everywhere
and the user resupplying kesim with only a 51-100 cost, the merged kesim
entry is exactly the user map and its range 0-50 cost reads as 0. -/
theorem c10_operations_wholesale_witness :
    objGet (mergeParameters c10Defaults c10Input emptyLayer).operations ("kesim")
      = some c10PartialMap ∧
    getValidNumber (c10PartialMap Range.r0_50) = 0 := by
  have h := (c10_operations_wholesale c10Defaults c10Input emptyLayer ("kesim")).1
    c10PartialMap rfl rfl
  exact ⟨h.1, h.2 Range.r0_50 rfl⟩

/-! ### Claims about the range computation -/

/-- The fabric-cost selection rule as the specification words it: the unit
price when present and strictly greater than 0, otherwise the base price
when present, otherwise 0.  Stated for refinement comparison with the
source's `getFabricCost`. -/
def fabricCostSpecRule (fab : FabricKey → JVal) : ℚ :=
  match fab FabricKey.unit_eur, fab FabricKey.price_eur with
  | some u, pr => if 0 < u then u else (match pr with | some q => q | none => 0)
  | none, some q => q
  | none, none => 0

/-- C7: on every fabric mapping that satisfies the validator's fabric
constraint (each present value at least 0.001) — which is exactly what
reaches the per-unit computation, since `calculateFromInput` validates
before computing — the source's truthiness chain `unit_eur || price_eur ||
0` selects fabric cost by the fixed priority the spec states, never a sum
or average. -/
theorem c7_fabric_priority (fab : FabricKey → JVal)
    (hvalid : ∀ k, (fab k).isSome → isValidPositiveNumber (fab k) = true) :
    getFabricCost fab = fabricCostSpecRule fab := by
  have hmin : ∀ k v, fab k = some v → MIN_POSITIVE_NUMBER ≤ v := by
    intro k v hk
    have := hvalid k (by rw [hk]; rfl)
    rw [isValidPositiveNumber, decide_eq_true_eq, hk] at this
    exact this
  cases hu : fab FabricKey.unit_eur with
  | some u =>
    have hupos : 0 < u :=
      lt_of_lt_of_le (by norm_num [MIN_POSITIVE_NUMBER]) (hmin _ u hu)
    rw [getFabricCost, fabricCostSpecRule]
    rw [hu]
    simp only [jsOr, getValidNumber, Option.getD_some, if_pos (ne_of_gt hupos), hupos, if_pos]
  | none =>
    cases hp : fab FabricKey.price_eur with
    | some q =>
      have hqpos : 0 < q :=
        lt_of_lt_of_le (by norm_num [MIN_POSITIVE_NUMBER]) (hmin _ q hp)
      rw [getFabricCost, fabricCostSpecRule, hu, hp]
      simp [jsOr, getValidNumber, ne_of_gt hqpos]
    | none =>
      rw [getFabricCost, fabricCostSpecRule, hu, hp]
      simp [jsOr, getValidNumber]

/-- The C7 witness fabric mapping: unit 5, base 3, per-metre absent. -/
def c7Fab : FabricKey → JVal := fun k =>
  match k with
  | FabricKey.unit_eur => some 5
  | FabricKey.price_eur => some 3
  | FabricKey.metre_eur => none

/-- C7, witness: on the concrete validated fabric mapping with unit 5 and
base 3, the source selection agrees with the spec rule and picks the unit
price 5 (not 3, not 8). -/
theorem c7_fabric_priority_witness :
    getFabricCost c7Fab = fabricCostSpecRule c7Fab ∧ getFabricCost c7Fab = 5 := by
  refine ⟨c7_fabric_priority c7Fab ?_, ?_⟩
  · intro k hk
    cases k
    · norm_num [c7Fab, isValidPositiveNumber, getValidNumber, MIN_POSITIVE_NUMBER]
    · norm_num [c7Fab, isValidPositiveNumber, getValidNumber, MIN_POSITIVE_NUMBER]
    · rw [c7Fab] at hk
      exact absurd hk (by simp)
  · rw [getFabricCost, c7Fab]
    simp only [jsOr, getValidNumber, Option.getD_some]
    norm_num

lemma safeDivision_den_zero (n d : JVal) (h : getValidNumber d = 0) :
    safeDivision n d = 0 := by
  rw [safeDivision, if_pos h]

lemma safeDivision_num_zero (d : JVal) : safeDivision (jq 0) d = 0 := by
  rw [safeDivision]
  split
  · rfl
  · rw [getValidNumber_jq]
    exact zero_div _

/-- C5: whenever the batch value for a range coerces to 0 (in particular
batch size 0), every division is guarded — the per-unit operations costs
and all four per-unit final fields of the computed range result are 0, for
any range and any parameter values; the computation is total, never
throwing or dividing by zero. -/
theorem c5_zero_batch_guarded (p : Params) (r : Range)
    (h : getValidNumber (p.batch r) = 0) :
    (calculateForRange r p).perUnitOpsTry = 0 ∧
    (calculateForRange r p).perUnitOpsEur = 0 ∧
    (calculateForRange r p).perUnitFinalEur = 0 ∧
    (calculateForRange r p).perUnitFinalTry = 0 ∧
    (calculateForRange r p).perUnitFinalUsd = 0 ∧
    (calculateForRange r p).perUnitFinalGbp = 0 := by
  have hb : getValidNumber (batchSizeOf p r) = 0 := h
  have hops : perUnitOpsTryOf p r = 0 := safeDivision_den_zero _ _ hb
  have hopseur : perUnitOpsEurOf p r = 0 := by
    rw [perUnitOpsEurOf, hops]
    exact safeDivision_num_zero _
  refine ⟨?_, ?_, ?_, ?_, ?_, ?_⟩
  · show roundTo2Decimals (jq (perUnitOpsTryOf p r)) = 0
    rw [hops]
    exact roundTo2_zero
  · show roundTo2Decimals (jq (perUnitOpsEurOf p r)) = 0
    rw [hopseur]
    exact roundTo2_zero
  · show roundTo2Decimals (jq (perUnitFinalEurOf p r)) = 0
    rw [perUnitFinalEurOf, safeDivision_den_zero _ _ hb]
    exact roundTo2_zero
  · show roundTo2Decimals (jq (perUnitFinalTryOf p r)) = 0
    rw [perUnitFinalTryOf, safeDivision_den_zero _ _ hb]
    exact roundTo2_zero
  · show roundTo2Decimals (jq (perUnitFinalUsdOf p r)) = 0
    rw [perUnitFinalUsdOf, safeDivision_den_zero _ _ hb]
    exact roundTo2_zero
  · show roundTo2Decimals (jq (perUnitFinalGbpOf p r)) = 0
    rw [perUnitFinalGbpOf, safeDivision_den_zero _ _ hb]
    exact roundTo2_zero

/-- The C5 witness parameter set: ordinary rates and costs but batch size 0
for range 0-50. -/
def c5Params : Params where
  rates := fun _ => some 38
  fabric := fun k => if k = FabricKey.unit_eur then some 5 else none
  genel_gider := fun _ => some 10
  karlilik := fun _ => some 20
  KDV := 18
  komisyon := 3
  operations := [(("dikim" : String), fun _ => some 100)]
  batch := fun r => if r = Range.r0_50 then some 0 else some 25

/-- C5, witness: with batch size 0 for range 0-50 and nonzero costs, all
per-unit fields of that range's result are 0 and nothing throws. -/
theorem c5_zero_batch_guarded_witness :
    (calculateForRange Range.r0_50 c5Params).perUnitOpsTry = 0 ∧
    (calculateForRange Range.r0_50 c5Params).perUnitOpsEur = 0 ∧
    (calculateForRange Range.r0_50 c5Params).perUnitFinalEur = 0 ∧
    (calculateForRange Range.r0_50 c5Params).perUnitFinalTry = 0 ∧
    (calculateForRange Range.r0_50 c5Params).perUnitFinalUsd = 0 ∧
    (calculateForRange Range.r0_50 c5Params).perUnitFinalGbp = 0 :=
  c5_zero_batch_guarded c5Params Range.r0_50 rfl

/-- C8: range independence.  If two parameter sets agree on rates, fabric,
KDV and komisyon, and agree on the overhead, profit, batch entries and
per-operation costs at every range other than r1, then the computed
`RangeResult` for any range r2 different from r1 is identical — corrupting
one range's inputs cannot change another range's result. -/
theorem c8_range_independence (p q : Params) (r1 r2 : Range) (hne : r2 ≠ r1)
    (hrates : p.rates = q.rates) (hfabric : p.fabric = q.fabric)
    (hkdv : p.KDV = q.KDV) (hkom : p.komisyon = q.komisyon)
    (hg : ∀ r, r ≠ r1 → p.genel_gider r = q.genel_gider r)
    (hk : ∀ r, r ≠ r1 → p.karlilik r = q.karlilik r)
    (hb : ∀ r, r ≠ r1 → p.batch r = q.batch r)
    (hops : List.Forall₂ (fun e e' => e.1 = e'.1 ∧ ∀ r, r ≠ r1 → e.2 r = e'.2 r)
      p.operations q.operations) :
    calculateForRange r2 p = calculateForRange r2 q := by
  have hbat : batchSizeOf p r2 = batchSizeOf q r2 := hb r2 hne
  have h2 : totalOpsTryOf p r2 = totalOpsTryOf q r2 := by
    rw [totalOpsTryOf, totalOpsTryOf]
    exact calculateOperationsCost_congr r2 _ _
      (List.Forall₂.imp (fun a b h => by rw [h.2 r2 hne]) hops)
  have h3 : perUnitOpsTryOf p r2 = perUnitOpsTryOf q r2 := by
    rw [perUnitOpsTryOf, perUnitOpsTryOf, h2, hbat]
  have h4 : perUnitOpsEurOf p r2 = perUnitOpsEurOf q r2 := by
    rw [perUnitOpsEurOf, perUnitOpsEurOf, h3, hrates]
  have h5 : fabricCostEurOf p = fabricCostEurOf q := by
    rw [fabricCostEurOf, fabricCostEurOf, hfabric]
  have h6 : perUnitEurOf p r2 = perUnitEurOf q r2 := by
    rw [perUnitEurOf, perUnitEurOf, h5, h4]
  have h7 : hamMaliyetEurOf p r2 = hamMaliyetEurOf q r2 := by
    rw [hamMaliyetEurOf, hamMaliyetEurOf, h6, hbat]
  have h8 : genelGiderEurOf p r2 = genelGiderEurOf q r2 := by
    rw [genelGiderEurOf, genelGiderEurOf, h7, hg r2 hne]
  have h9 : karEurOf p r2 = karEurOf q r2 := by
    rw [karEurOf, karEurOf, h7, hk r2 hne]
  have h10 : taxableEurOf p r2 = taxableEurOf q r2 := by
    rw [taxableEurOf, taxableEurOf, h7, h8, h9]
  have h11 : kdvEurOf p r2 = kdvEurOf q r2 := by
    rw [kdvEurOf, kdvEurOf, h10, hkdv]
  have h12 : commissionEurOf p r2 = commissionEurOf q r2 := by
    rw [commissionEurOf, commissionEurOf, h10, hkom]
  have h13 : finalEurOf p r2 = finalEurOf q r2 := by
    rw [finalEurOf, finalEurOf, h10, h11, h12]
  have h14 : finalTryOf p r2 = finalTryOf q r2 := by
    rw [finalTryOf, finalTryOf, h13, hrates]
  have h15 : finalUsdOf p r2 = finalUsdOf q r2 := by
    rw [finalUsdOf, finalUsdOf, h14, hrates]
  have h16 : finalGbpOf p r2 = finalGbpOf q r2 := by
    rw [finalGbpOf, finalGbpOf, h14, hrates]
  have h17 : perUnitFinalEurOf p r2 = perUnitFinalEurOf q r2 := by
    rw [perUnitFinalEurOf, perUnitFinalEurOf, h13, hbat]
  have h18 : perUnitFinalTryOf p r2 = perUnitFinalTryOf q r2 := by
    rw [perUnitFinalTryOf, perUnitFinalTryOf, h14, hbat]
  have h19 : perUnitFinalUsdOf p r2 = perUnitFinalUsdOf q r2 := by
    rw [perUnitFinalUsdOf, perUnitFinalUsdOf, h15, hbat]
  have h20 : perUnitFinalGbpOf p r2 = perUnitFinalGbpOf q r2 := by
    rw [perUnitFinalGbpOf, perUnitFinalGbpOf, h16, hbat]
  simp only [calculateForRange]
  rw [hbat, h3, h4, h5, h6, h7, h8, h9, h10, h11, h12, h13, h14, h15, h16, h17, h18, h19, h20]

/-- The C8 witness baseline parameter set. -/
def c8Base : Params where
  rates := fun _ => some 40
  fabric := fun k => if k = FabricKey.unit_eur then some 5 else none
  genel_gider := fun _ => some 10
  karlilik := fun _ => some 20
  KDV := 18
  komisyon := 3
  operations := [(("dikim" : String), fun _ => some 100)]
  batch := fun _ => some 25

/-- The C8 witness parameter set with range 0-50 inputs corrupted: its
operation cost, overhead, profit and batch size changed, all other ranges
untouched. -/
def c8Tampered : Params where
  rates := fun _ => some 40
  fabric := fun k => if k = FabricKey.unit_eur then some 5 else none
  genel_gider := fun r => if r = Range.r0_50 then none else some 10
  karlilik := fun r => if r = Range.r0_50 then some 95 else some 20
  KDV := 18
  komisyon := 3
  operations := [(("dikim" : String), fun r => if r = Range.r0_50 then some 77777 else some 100)]
  batch := fun r => if r = Range.r0_50 then some 1 else some 25

/-- C8, witness: corrupting every range 0-50 input of the baseline leaves
the range 51-100 result identical. -/
theorem c8_range_independence_witness :
    calculateForRange Range.r51_100 c8Base = calculateForRange Range.r51_100 c8Tampered := by
  refine c8_range_independence c8Base c8Tampered Range.r0_50 Range.r51_100
    (by simp) rfl rfl rfl rfl ?_ ?_ ?_ ?_
  · intro r hr
    cases r
    · exact absurd rfl hr
    · rfl
    · rfl
  · intro r hr
    cases r
    · exact absurd rfl hr
    · rfl
    · rfl
  · intro r hr
    cases r
    · exact absurd rfl hr
    · rfl
    · rfl
  · refine List.Forall₂.cons ⟨rfl, ?_⟩ List.Forall₂.nil
    intro r hr
    cases r
    · exact absurd rfl hr
    · rfl
    · rfl

/-- C6 counterexample user layer: ordinary rates, fabric 5, zero VAT and
commission. -/
def c6Input : Layer :=
  { emptyLayer with
      rates := fun c =>
        match c with
        | Currency.EUR => some (some (77 / 2))
        | Currency.USD => some (some (171 / 5))
        | Currency.GBP => some (some (451 / 10))
      fabric := fun k =>
        match k with
        | FabricKey.unit_eur => some (some 5)
        | _ => none
      KDV := some 0
      komisyon := some 0 }

/-- C6 counterexample overrides layer: overhead -300 percent for range
0-50, a value the merged-parameter validator never examines. -/
def c6Overrides : Layer :=
  { emptyLayer with
      genel_gider := fun r =>
        match r with
        | Range.r0_50 => some (some (-300))
        | _ => none }

/-- C6, counterexample: the merged parameters pass
`validateCalculationParameters` (which never checks overhead or profit),
yet the computed range 0-50 result has `finalEur = -250 < 0`: fabric 5 ×
batch 25 = 125, overhead -300 percent gives -375, taxable -250, VAT and
commission 0. -/
theorem c6_nonnegativity_counterexample :
    (calcResult emptyLayer c6Input c6Overrides Range.r0_50).map RangeResult.finalEur
      = some (-250) ∧ ((-250 : ℚ) < 0) := by
  have hval : validateCalculationParameters (mergeParameters emptyLayer c6Input c6Overrides)
      = [] := by
    rw [validate_eq_nil]
    refine ⟨fun c => ?_, fun k => ?_, ?_, ?_, fun r => ?_⟩
    · cases c <;>
        norm_num [mergeParameters, spread3, c6Input, c6Overrides, emptyLayer, Option.orElse,
          isValidPositiveNumber, getValidNumber, MIN_POSITIVE_NUMBER]
    · cases k <;>
        norm_num [mergeParameters, spread3, c6Input, c6Overrides, emptyLayer, Option.orElse,
          isValidPositiveNumber, getValidNumber, MIN_POSITIVE_NUMBER]
    · norm_num [mergeParameters, c6Input, c6Overrides, emptyLayer, Option.orElse,
        isValidPercentage, getValidNumber, jq, MIN_PERCENTAGE, MAX_PERCENTAGE]
    · norm_num [mergeParameters, c6Input, c6Overrides, emptyLayer, Option.orElse,
        isValidPercentage, getValidNumber, jq, MIN_PERCENTAGE, MAX_PERCENTAGE]
    · cases r <;>
        norm_num [mergeParameters, c6Input, c6Overrides, emptyLayer, Option.orElse,
          isValidBatchSize, getValidNumber, jq, defaultBatch, MIN_BATCH_SIZE, MAX_BATCH_SIZE]
  have hfe : finalEurOf (mergeParameters emptyLayer c6Input c6Overrides) Range.r0_50
      = some (-250) := by
    norm_num [finalEurOf, taxableEurOf, kdvEurOf, commissionEurOf, genelGiderEurOf, karEurOf,
      hamMaliyetEurOf, perUnitEurOf, fabricCostEurOf, perUnitOpsEurOf, perUnitOpsTryOf,
      totalOpsTryOf, batchSizeOf, calculateOperationsCost, getFabricCost, jsOr, applyPercentage,
      safeDivision, getValidNumber, jq, jmul, jadd, PERCENTAGE_DIVISOR, mergeParameters, spread3,
      spreadOps, mergeInto, objGet, c6Input, c6Overrides, emptyLayer, Option.orElse, defaultBatch]
  have hround : roundTo2Decimals (jq (-250 : ℚ)) = -250 := by
    rw [roundTo2_eval (-250) (-25000) (by norm_num [numberEpsilon]) (by norm_num [numberEpsilon])]
    norm_num
  refine ⟨?_, by norm_num⟩
  rw [calcResult, calculateFromInput]
  simp only [hval, if_pos]
  show some (roundTo2Decimals (finalEurOf (mergeParameters emptyLayer c6Input c6Overrides)
    Range.r0_50)) = some (-250)
  rw [hfe]
  exact congrArg some hround

/-- C6, amended: with the hypotheses the counterexample forces added — the
merged overhead, profit and per-operation costs for the range are
non-negative, which the validator does not enforce — every range result of
a validated parameter set has non-negative finalEur, finalTry, finalUsd
and finalGbp. -/
theorem c6_nonnegativity_amended (p : Params) (r : Range)
    (hval : validateCalculationParameters p = [])
    (hg : 0 ≤ getValidNumber (p.genel_gider r))
    (hk : 0 ≤ getValidNumber (p.karlilik r))
    (hops : ∀ e ∈ p.operations, 0 ≤ getValidNumber (e.2 r)) :
    0 ≤ (calculateForRange r p).finalEur ∧ 0 ≤ (calculateForRange r p).finalTry ∧
    0 ≤ (calculateForRange r p).finalUsd ∧ 0 ≤ (calculateForRange r p).finalGbp := by
  obtain ⟨hr, hf, hkdv, hkom, hb⟩ := (validate_eq_nil p).mp hval
  have hr' : ∀ c, 0 ≤ getValidNumber (p.rates c) := by
    intro c
    have := hr c
    rw [isValidPositiveNumber, decide_eq_true_eq] at this
    calc (0 : ℚ) ≤ MIN_POSITIVE_NUMBER := by norm_num [MIN_POSITIVE_NUMBER]
      _ ≤ _ := this
  have hkdv' : 0 ≤ p.KDV := by
    rw [isValidPercentage, decide_eq_true_eq] at hkdv
    have h := hkdv.1
    rw [MIN_PERCENTAGE, getValidNumber_jq] at h
    exact h
  have hkom' : 0 ≤ p.komisyon := by
    rw [isValidPercentage, decide_eq_true_eq] at hkom
    have h := hkom.1
    rw [MIN_PERCENTAGE, getValidNumber_jq] at h
    exact h
  have hbat' : ∀ s, 0 ≤ getValidNumber (p.batch s) := by
    intro s
    have := hb s
    rw [isValidBatchSize, decide_eq_true_eq] at this
    calc (0 : ℚ) ≤ MIN_BATCH_SIZE := by norm_num [MIN_BATCH_SIZE]
      _ ≤ _ := this.1
  have hfab' : ∀ k, (p.fabric k).isSome → MIN_POSITIVE_NUMBER ≤ getValidNumber (p.fabric k) := by
    intro k hk2
    have := hf k hk2
    rw [isValidPositiveNumber, decide_eq_true_eq] at this
    exact this
  have n1 : 0 ≤ totalOpsTryOf p r := calculateOperationsCost_nonneg r _ hops
  have n2 : 0 ≤ perUnitOpsTryOf p r :=
    safeDivision_nonneg _ _ (by rw [getValidNumber_jq]; exact n1) (hbat' r)
  have n3 : 0 ≤ perUnitOpsEurOf p r :=
    safeDivision_nonneg _ _ (by rw [getValidNumber_jq]; exact n2) (hr' Currency.EUR)
  have n4 : 0 ≤ fabricCostEurOf p := getFabricCost_nonneg _ hfab'
  have n5 : 0 ≤ perUnitEurOf p r := add_nonneg n4 n3
  have n6 : 0 ≤ getValidNumber (hamMaliyetEurOf p r) :=
    getValidNumber_jmul_nonneg _ _ (by rw [getValidNumber_jq]; exact n5) (hbat' r)
  have n7 : 0 ≤ genelGiderEurOf p r := applyPercentage_nonneg _ _ n6 hg
  have n8 : 0 ≤ karEurOf p r := applyPercentage_nonneg _ _ n6 hk
  have n9 : 0 ≤ getValidNumber (taxableEurOf p r) := by
    rw [taxableEurOf]
    exact getValidNumber_jadd_nonneg _ _
      (getValidNumber_jadd_nonneg _ _ n6 (by rw [getValidNumber_jq]; exact n7))
      (by rw [getValidNumber_jq]; exact n8)
  have n10 : 0 ≤ kdvEurOf p r :=
    applyPercentage_nonneg _ _ n9 (by rw [getValidNumber_jq]; exact hkdv')
  have n11 : 0 ≤ commissionEurOf p r :=
    applyPercentage_nonneg _ _ n9 (by rw [getValidNumber_jq]; exact hkom')
  have n12 : 0 ≤ getValidNumber (finalEurOf p r) := by
    rw [finalEurOf]
    exact getValidNumber_jadd_nonneg _ _
      (getValidNumber_jadd_nonneg _ _ n9 (by rw [getValidNumber_jq]; exact n10))
      (by rw [getValidNumber_jq]; exact n11)
  have n13 : 0 ≤ getValidNumber (finalTryOf p r) :=
    getValidNumber_jmul_nonneg _ _ n12 (hr' Currency.EUR)
  have n14 : 0 ≤ finalUsdOf p r := safeDivision_nonneg _ _ n13 (hr' Currency.USD)
  have n15 : 0 ≤ finalGbpOf p r := safeDivision_nonneg _ _ n13 (hr' Currency.GBP)
  exact ⟨roundTo2_nonneg _ n12, roundTo2_nonneg _ n13,
    roundTo2_nonneg _ (by rw [getValidNumber_jq]; exact n14),
    roundTo2_nonneg _ (by rw [getValidNumber_jq]; exact n15)⟩

/-- C6, witness: the amended statement applied to a concrete validated
parameter set with non-negative overhead, profit and operation costs. -/
theorem c6_nonnegativity_witness :
    0 ≤ (calculateForRange Range.r0_50 c8Base).finalEur ∧
    0 ≤ (calculateForRange Range.r0_50 c8Base).finalTry ∧
    0 ≤ (calculateForRange Range.r0_50 c8Base).finalUsd ∧
    0 ≤ (calculateForRange Range.r0_50 c8Base).finalGbp := by
  refine c6_nonnegativity_amended c8Base Range.r0_50 ?_ ?_ ?_ ?_
  · rw [validate_eq_nil]
    refine ⟨fun c => ?_, fun k => ?_, ?_, ?_, fun r => ?_⟩
    · cases c <;>
        norm_num [c8Base, isValidPositiveNumber, getValidNumber, MIN_POSITIVE_NUMBER]
    · cases k
      · norm_num [c8Base, isValidPositiveNumber, getValidNumber, MIN_POSITIVE_NUMBER]
      · intro hk
        rw [c8Base] at hk
        exact absurd hk (by simp)
      · intro hk
        rw [c8Base] at hk
        exact absurd hk (by simp)
    · norm_num [c8Base, isValidPercentage, getValidNumber, jq, MIN_PERCENTAGE, MAX_PERCENTAGE]
    · norm_num [c8Base, isValidPercentage, getValidNumber, jq, MIN_PERCENTAGE, MAX_PERCENTAGE]
    · cases r <;>
        norm_num [c8Base, isValidBatchSize, getValidNumber, jq, MIN_BATCH_SIZE, MAX_BATCH_SIZE]
  · norm_num [c8Base, getValidNumber]
  · norm_num [c8Base, getValidNumber]
  · intro e he
    rw [c8Base] at he
    simp only [List.mem_singleton] at he
    subst he
    norm_num [getValidNumber]

/-- Scenario A request body: rates EUR 38.50 / USD 34.20 / GBP 45.10,
fabric unit 5.00, one operation with cost 0 everywhere, overhead and
profit 0, VAT 18, commission 3, batch 0-50 = 25. -/
def scenarioAInput : Layer where
  rates := fun c =>
    match c with
    | Currency.EUR => some (some (77 / 2))
    | Currency.USD => some (some (171 / 5))
    | Currency.GBP => some (some (451 / 10))
  fabric := fun k =>
    match k with
    | FabricKey.unit_eur => some (some 5)
    | _ => none
  genel_gider := fun _ => some (some 0)
  karlilik := fun _ => some (some 0)
  KDV := some 18
  komisyon := some 3
  operations := [(("dikim" : String), fun _ => some 0)]
  batch := fun r =>
    match r with
    | Range.r0_50 => some (some 25)
    | _ => none

/-- C2: Scenario A computes, for range 0-50, per-unit cost 5.00, raw cost
125.00, taxable 125.00, VAT 22.50, commission 3.75, final foreign total
151.25, and final local total 151.25 × 38.50 = 5823.125 reported rounded
as 5823.13. -/
theorem c2_scenario_a :
    (calcResult emptyLayer scenarioAInput emptyLayer Range.r0_50).map RangeResult.perUnitEur
      = some 5 ∧
    (calcResult emptyLayer scenarioAInput emptyLayer Range.r0_50).map RangeResult.hamMaliyetEur
      = some 125 ∧
    (calcResult emptyLayer scenarioAInput emptyLayer Range.r0_50).map RangeResult.taxableEur
      = some 125 ∧
    (calcResult emptyLayer scenarioAInput emptyLayer Range.r0_50).map RangeResult.kdvEur
      = some (45 / 2) ∧
    (calcResult emptyLayer scenarioAInput emptyLayer Range.r0_50).map RangeResult.commissionEur
      = some (15 / 4) ∧
    (calcResult emptyLayer scenarioAInput emptyLayer Range.r0_50).map RangeResult.finalEur
      = some (605 / 4) ∧
    (calcResult emptyLayer scenarioAInput emptyLayer Range.r0_50).map RangeResult.finalTry
      = some (582313 / 100) := by
  have hval : validateCalculationParameters (mergeParameters emptyLayer scenarioAInput emptyLayer)
      = [] := by
    rw [validate_eq_nil]
    refine ⟨fun c => ?_, fun k => ?_, ?_, ?_, fun r => ?_⟩
    · cases c <;>
        norm_num [mergeParameters, spread3, scenarioAInput, emptyLayer, Option.orElse,
          isValidPositiveNumber, getValidNumber, MIN_POSITIVE_NUMBER]
    · cases k <;>
        norm_num [mergeParameters, spread3, scenarioAInput, emptyLayer, Option.orElse,
          isValidPositiveNumber, getValidNumber, MIN_POSITIVE_NUMBER]
    · norm_num [mergeParameters, scenarioAInput, emptyLayer, Option.orElse,
        isValidPercentage, getValidNumber, jq, MIN_PERCENTAGE, MAX_PERCENTAGE]
    · norm_num [mergeParameters, scenarioAInput, emptyLayer, Option.orElse,
        isValidPercentage, getValidNumber, jq, MIN_PERCENTAGE, MAX_PERCENTAGE]
    · cases r <;>
        norm_num [mergeParameters, scenarioAInput, emptyLayer, Option.orElse,
          isValidBatchSize, getValidNumber, jq, defaultBatch, MIN_BATCH_SIZE, MAX_BATCH_SIZE]
  have hcalc : calcResult emptyLayer scenarioAInput emptyLayer Range.r0_50
      = some (calculateForRange Range.r0_50 (mergeParameters emptyLayer scenarioAInput
        emptyLayer)) := by
    rw [calcResult, calculateFromInput]
    simp only [hval, if_pos]
    rfl
  have e1 : perUnitEurOf (mergeParameters emptyLayer scenarioAInput emptyLayer) Range.r0_50
      = 5 := by
    norm_num [perUnitEurOf, fabricCostEurOf, perUnitOpsEurOf, perUnitOpsTryOf, totalOpsTryOf,
      batchSizeOf, calculateOperationsCost, getFabricCost, jsOr, safeDivision, getValidNumber,
      jq, mergeParameters, spread3, spreadOps, mergeInto, objGet, scenarioAInput, emptyLayer,
      Option.orElse, defaultBatch]
  have e2 : hamMaliyetEurOf (mergeParameters emptyLayer scenarioAInput emptyLayer) Range.r0_50
      = some 125 := by
    rw [hamMaliyetEurOf, e1]
    norm_num [batchSizeOf, jmul, jq, mergeParameters, spread3, scenarioAInput, emptyLayer,
      Option.orElse, defaultBatch]
  have e3 : taxableEurOf (mergeParameters emptyLayer scenarioAInput emptyLayer) Range.r0_50
      = some 125 := by
    rw [taxableEurOf, e2]
    norm_num [genelGiderEurOf, karEurOf, e2, applyPercentage, getValidNumber, jq, jadd,
      PERCENTAGE_DIVISOR, mergeParameters, spread3, scenarioAInput, emptyLayer, Option.orElse]
  have e4 : kdvEurOf (mergeParameters emptyLayer scenarioAInput emptyLayer) Range.r0_50
      = 45 / 2 := by
    rw [kdvEurOf, e3]
    norm_num [applyPercentage, getValidNumber, jq, PERCENTAGE_DIVISOR, mergeParameters,
      scenarioAInput, emptyLayer, Option.orElse]
  have e5 : commissionEurOf (mergeParameters emptyLayer scenarioAInput emptyLayer) Range.r0_50
      = 15 / 4 := by
    rw [commissionEurOf, e3]
    norm_num [applyPercentage, getValidNumber, jq, PERCENTAGE_DIVISOR, mergeParameters,
      scenarioAInput, emptyLayer, Option.orElse]
  have e6 : finalEurOf (mergeParameters emptyLayer scenarioAInput emptyLayer) Range.r0_50
      = some (605 / 4) := by
    rw [finalEurOf, e3, e4, e5]
    norm_num [jadd, jq]
  have e7 : finalTryOf (mergeParameters emptyLayer scenarioAInput emptyLayer) Range.r0_50
      = some (46585 / 8) := by
    rw [finalTryOf, e6]
    norm_num [jmul, jq, mergeParameters, spread3, scenarioAInput, emptyLayer, Option.orElse]
  have r1 : roundTo2Decimals (jq 5) = 5 := by
    have h := roundTo2_eval 5 500 (by norm_num [numberEpsilon]) (by norm_num [numberEpsilon])
    norm_num at h
    exact h
  have r2 : roundTo2Decimals (some (125 : ℚ)) = 125 := by
    have h := roundTo2_eval 125 12500 (by norm_num [numberEpsilon]) (by norm_num [numberEpsilon])
    norm_num at h
    exact h
  have r4 : roundTo2Decimals (jq (45 / 2)) = 45 / 2 := by
    have h := roundTo2_eval (45 / 2) 2250 (by norm_num [numberEpsilon])
      (by norm_num [numberEpsilon])
    norm_num at h
    exact h
  have r5 : roundTo2Decimals (jq (15 / 4)) = 15 / 4 := by
    have h := roundTo2_eval (15 / 4) 375 (by norm_num [numberEpsilon])
      (by norm_num [numberEpsilon])
    norm_num at h
    exact h
  have r6 : roundTo2Decimals (some (605 / 4 : ℚ)) = 605 / 4 := by
    have h := roundTo2_eval (605 / 4) 15125 (by norm_num [numberEpsilon])
      (by norm_num [numberEpsilon])
    norm_num at h
    exact h
  have r7 : roundTo2Decimals (some (46585 / 8 : ℚ)) = 582313 / 100 := by
    have h := roundTo2_eval (46585 / 8) 582313 (by norm_num [numberEpsilon])
      (by norm_num [numberEpsilon])
    norm_num at h
    exact h
  rw [hcalc]
  simp only [Option.map_some, calculateForRange]
  rw [e1, e2, e3, e4, e5, e6, e7, r1, r2, r4, r5, r6, r7]
  norm_num

/-! ### Claims about error behaviour and rounding -/

/-- C3 counterexample layer (a): Scenario A with overhead 500 percent for
range 0-50 — far outside [0, 100]. -/
def c3OverheadInput : Layer :=
  { scenarioAInput with
      genel_gider := fun r =>
        match r with
        | Range.r0_50 => some (some 500)
        | _ => some (some 0) }

/-- C3 counterexample layer (b): Scenario A with the EUR rate set to 0. -/
def c3ZeroRateInput : Layer :=
  { scenarioAInput with
      rates := fun c =>
        match c with
        | Currency.EUR => some (some 0)
        | Currency.USD => some (some (171 / 5))
        | Currency.GBP => some (some (451 / 10)) }

/-- C3, counterexample: (a) an overhead percentage of 500, outside [0,100],
produces no violation at all — the merged-parameter validator never checks
overhead/profit, and the calculation succeeds; (b) when validation does
fail (EUR rate 0) the error thrown is the `CalculationError` class, not
`ValidationError` as claimed. -/
theorem c3_validation_counterexample :
    (validateCalculationParameters (mergeParameters emptyLayer c3OverheadInput emptyLayer) = []
      ∧ getValidNumber ((mergeParameters emptyLayer c3OverheadInput emptyLayer).genel_gider
          Range.r0_50) = 500
      ∧ calcSucceeds emptyLayer c3OverheadInput emptyLayer = true) ∧
    (calculateFromInput emptyLayer c3ZeroRateInput emptyLayer
        = Except.error ⟨ErrClass.CalculationError, [Violation.rate Currency.EUR]⟩
      ∧ ErrClass.CalculationError ≠ ErrClass.ValidationError) := by
  have hval : validateCalculationParameters (mergeParameters emptyLayer c3OverheadInput
      emptyLayer) = [] := by
    rw [validate_eq_nil]
    refine ⟨fun c => ?_, fun k => ?_, ?_, ?_, fun r => ?_⟩
    · cases c <;>
        norm_num [mergeParameters, spread3, c3OverheadInput, scenarioAInput, emptyLayer,
          Option.orElse, isValidPositiveNumber, getValidNumber, MIN_POSITIVE_NUMBER]
    · cases k <;>
        norm_num [mergeParameters, spread3, c3OverheadInput, scenarioAInput, emptyLayer,
          Option.orElse, isValidPositiveNumber, getValidNumber, MIN_POSITIVE_NUMBER]
    · norm_num [mergeParameters, c3OverheadInput, scenarioAInput, emptyLayer, Option.orElse,
        isValidPercentage, getValidNumber, jq, MIN_PERCENTAGE, MAX_PERCENTAGE]
    · norm_num [mergeParameters, c3OverheadInput, scenarioAInput, emptyLayer, Option.orElse,
        isValidPercentage, getValidNumber, jq, MIN_PERCENTAGE, MAX_PERCENTAGE]
    · cases r <;>
        norm_num [mergeParameters, c3OverheadInput, scenarioAInput, emptyLayer, Option.orElse,
          isValidBatchSize, getValidNumber, jq, defaultBatch, MIN_BATCH_SIZE, MAX_BATCH_SIZE]
  have hbad : validateCalculationParameters (mergeParameters emptyLayer c3ZeroRateInput
      emptyLayer) = [Violation.rate Currency.EUR] := by
    norm_num [validateCalculationParameters, supportedCurrencies, fabricKeys, batchRanges,
      List.filterMap_cons, mergeParameters, spread3, c3ZeroRateInput, scenarioAInput,
      emptyLayer, Option.orElse, isValidPositiveNumber, isValidPercentage, isValidBatchSize,
      getValidNumber, jq, defaultBatch, MIN_POSITIVE_NUMBER, MIN_PERCENTAGE, MAX_PERCENTAGE,
      MIN_BATCH_SIZE, MAX_BATCH_SIZE]
  refine ⟨⟨hval, ?_, ?_⟩, ?_, by simp⟩
  · norm_num [mergeParameters, spread3, c3OverheadInput, scenarioAInput, emptyLayer,
      Option.orElse, getValidNumber]
  · rw [calcSucceeds, calculateFromInput]
    simp only [hval, if_pos]
  · rw [calculateFromInput]
    simp only [hbad]
    rfl

/-- C3, amended: merged-parameter validation is collect-all over the
checked categories — a violation entry appears for a field exactly when
that field breaks its bound (rates below 0.001 after coercion, non-null
fabric values below 0.001, KDV or komisyon outside [0,100], batch sizes
outside [1,10000]); overhead and profit maps are never checked; when the
list is nonempty `calculateFromInput` throws the `CalculationError` class
carrying the entire list, and otherwise returns the full result. -/
theorem c3_validation_amended (d i o : Layer) :
    (∀ c, Violation.rate c ∈ validateCalculationParameters (mergeParameters d i o) ↔
      isValidPositiveNumber ((mergeParameters d i o).rates c) = false) ∧
    (∀ k, Violation.fabricPrice k ∈ validateCalculationParameters (mergeParameters d i o) ↔
      (((mergeParameters d i o).fabric k).isSome ∧
        isValidPositiveNumber ((mergeParameters d i o).fabric k) = false)) ∧
    (Violation.kdv ∈ validateCalculationParameters (mergeParameters d i o) ↔
      isValidPercentage (jq (mergeParameters d i o).KDV) = false) ∧
    (Violation.komisyon ∈ validateCalculationParameters (mergeParameters d i o) ↔
      isValidPercentage (jq (mergeParameters d i o).komisyon) = false) ∧
    (∀ r, Violation.batchSize r ∈ validateCalculationParameters (mergeParameters d i o) ↔
      isValidBatchSize ((mergeParameters d i o).batch r) = false) ∧
    (validateCalculationParameters (mergeParameters d i o) ≠ [] →
      calculateFromInput d i o = Except.error
        ⟨ErrClass.CalculationError, validateCalculationParameters (mergeParameters d i o)⟩) ∧
    (validateCalculationParameters (mergeParameters d i o) = [] →
      calculateFromInput d i o = Except.ok
        ⟨mergeParameters d i o, performCalculations (mergeParameters d i o)⟩) := by
  refine ⟨fun c => mem_validate_rate _ c, fun k => mem_validate_fabric _ k,
    mem_validate_kdv _, mem_validate_komisyon _, fun r => mem_validate_batch _ r, ?_, ?_⟩
  · intro h
    rw [calculateFromInput]
    simp only [if_neg h]
  · intro h
    rw [calculateFromInput]
    simp only [h, if_pos]

/-- C3, witness: the amended statement at the zero-EUR-rate input — the
violation list contains the EUR rate entry and the calculation throws the
`CalculationError` carrying that list. -/
theorem c3_validation_amended_witness :
    Violation.rate Currency.EUR ∈
      validateCalculationParameters (mergeParameters emptyLayer c3ZeroRateInput emptyLayer) ∧
    calculateFromInput emptyLayer c3ZeroRateInput emptyLayer
      = Except.error ⟨ErrClass.CalculationError,
          validateCalculationParameters (mergeParameters emptyLayer c3ZeroRateInput emptyLayer)⟩ := by
  have h := c3_validation_amended emptyLayer c3ZeroRateInput emptyLayer
  have hmem : Violation.rate Currency.EUR ∈
      validateCalculationParameters (mergeParameters emptyLayer c3ZeroRateInput emptyLayer) := by
    refine (h.1 Currency.EUR).mpr ?_
    norm_num [mergeParameters, spread3, c3ZeroRateInput, scenarioAInput, emptyLayer,
      Option.orElse, isValidPositiveNumber, getValidNumber, MIN_POSITIVE_NUMBER]
  exact ⟨hmem, h.2.2.2.2.2.1 (List.ne_nil_of_mem hmem)⟩

/-- The C4 direct-parameter set imagined by the spec's example: an EUR
rate of 0 reaching the range computation (validation bypassed). -/
def c4ZeroRateParams : Params where
  rates := fun _ => some 0
  fabric := fun k =>
    match k with
    | FabricKey.unit_eur => some 5
    | _ => none
  genel_gider := fun _ => some 10
  karlilik := fun _ => some 20
  KDV := 18
  komisyon := 3
  operations := [(("dikim" : String), fun _ => some 100)]
  batch := fun _ => some 25

/-- C4, counterexample: arithmetic steps receiving missing or invalid
numeric inputs never raise.  (a) With the merged overhead map entirely
absent (validation passes, since overhead is unchecked), the calculation
returns a full success whose overhead amount is the coercion 0 — no
`CalculationError` identifies the missing field.  (b) A currency rate of 0
reaching the range computation directly yields per-unit operations cost 0
through the guarded division rather than any error. -/
theorem c4_missing_input_counterexample :
    ((mergeParameters emptyLayer c6Input emptyLayer).genel_gider Range.r0_50 = none
      ∧ calcSucceeds emptyLayer c6Input emptyLayer = true
      ∧ (calcResult emptyLayer c6Input emptyLayer Range.r0_50).map RangeResult.genelGiderEur
          = some 0) ∧
    (calculateForRange Range.r0_50 c4ZeroRateParams).perUnitOpsEur = 0 := by
  have hval : validateCalculationParameters (mergeParameters emptyLayer c6Input emptyLayer)
      = [] := by
    rw [validate_eq_nil]
    refine ⟨fun c => ?_, fun k => ?_, ?_, ?_, fun r => ?_⟩
    · cases c <;>
        norm_num [mergeParameters, spread3, c6Input, emptyLayer, Option.orElse,
          isValidPositiveNumber, getValidNumber, MIN_POSITIVE_NUMBER]
    · cases k <;>
        norm_num [mergeParameters, spread3, c6Input, emptyLayer, Option.orElse,
          isValidPositiveNumber, getValidNumber, MIN_POSITIVE_NUMBER]
    · norm_num [mergeParameters, c6Input, emptyLayer, Option.orElse, isValidPercentage,
        getValidNumber, jq, MIN_PERCENTAGE, MAX_PERCENTAGE]
    · norm_num [mergeParameters, c6Input, emptyLayer, Option.orElse, isValidPercentage,
        getValidNumber, jq, MIN_PERCENTAGE, MAX_PERCENTAGE]
    · cases r <;>
        norm_num [mergeParameters, c6Input, emptyLayer, Option.orElse, isValidBatchSize,
          getValidNumber, jq, defaultBatch, MIN_BATCH_SIZE, MAX_BATCH_SIZE]
  have hgg : genelGiderEurOf (mergeParameters emptyLayer c6Input emptyLayer) Range.r0_50
      = 0 := by
    rw [genelGiderEurOf, applyPercentage]
    have hnone : (mergeParameters emptyLayer c6Input emptyLayer).genel_gider Range.r0_50
        = none := rfl
    rw [hnone]
    norm_num [getValidNumber, PERCENTAGE_DIVISOR]
  refine ⟨⟨rfl, ?_, ?_⟩, ?_⟩
  · rw [calcSucceeds, calculateFromInput]
    simp only [hval, if_pos]
  · rw [calcResult, calculateFromInput]
    simp only [hval, if_pos]
    show some (roundTo2Decimals (jq (genelGiderEurOf (mergeParameters emptyLayer c6Input
      emptyLayer) Range.r0_50))) = some 0
    rw [hgg]
    exact congrArg some roundTo2_zero
  · have h0 : perUnitOpsEurOf c4ZeroRateParams Range.r0_50 = 0 := by
      rw [perUnitOpsEurOf]
      exact safeDivision_den_zero _ _ rfl
    show roundTo2Decimals (jq (perUnitOpsEurOf c4ZeroRateParams Range.r0_50)) = 0
    rw [h0]
    exact roundTo2_zero

/-- C4, amended: the engine coerces missing or non-numeric inputs to 0
(`getValidNumber`) and guards zero denominators (`safeDivision` returns
0), so the range computation is total: whenever the merged parameters pass
validation, `calculateFromInput` returns the complete result map for all
ranges — a per-range `CalculationError` wrapper exists in the source but is
unreachable for numeric inputs, and no partial map is ever produced. -/
theorem c4_no_arithmetic_failure_amended (d i o : Layer) :
    (validateCalculationParameters (mergeParameters d i o) = [] →
      calculateFromInput d i o = Except.ok
        ⟨mergeParameters d i o, performCalculations (mergeParameters d i o)⟩) ∧
    getValidNumber none = 0 ∧
    (∀ n dv, getValidNumber dv = 0 → safeDivision n dv = 0) := by
  refine ⟨?_, rfl, fun n dv h => safeDivision_den_zero n dv h⟩
  intro h
  rw [calculateFromInput]
  simp only [h, if_pos]

/-- C4, witness: the amended statement at the concrete input with a fully
absent overhead map — validation passes and the whole result map is
returned as success. -/
theorem c4_no_arithmetic_failure_witness :
    calculateFromInput emptyLayer c6Input emptyLayer = Except.ok
      ⟨mergeParameters emptyLayer c6Input emptyLayer,
        performCalculations (mergeParameters emptyLayer c6Input emptyLayer)⟩ ∧
    safeDivision (jq 5) (some 0) = 0 := by
  have h := c4_no_arithmetic_failure_amended emptyLayer c6Input emptyLayer
  refine ⟨h.1 ?_, h.2.2 (jq 5) (some 0) rfl⟩
  rw [validate_eq_nil]
  refine ⟨fun c => ?_, fun k => ?_, ?_, ?_, fun r => ?_⟩
  · cases c <;>
      norm_num [mergeParameters, spread3, c6Input, emptyLayer, Option.orElse,
        isValidPositiveNumber, getValidNumber, MIN_POSITIVE_NUMBER]
  · cases k <;>
      norm_num [mergeParameters, spread3, c6Input, emptyLayer, Option.orElse,
        isValidPositiveNumber, getValidNumber, MIN_POSITIVE_NUMBER]
  · norm_num [mergeParameters, c6Input, emptyLayer, Option.orElse, isValidPercentage,
      getValidNumber, jq, MIN_PERCENTAGE, MAX_PERCENTAGE]
  · norm_num [mergeParameters, c6Input, emptyLayer, Option.orElse, isValidPercentage,
      getValidNumber, jq, MIN_PERCENTAGE, MAX_PERCENTAGE]
  · cases r <;>
      norm_num [mergeParameters, c6Input, emptyLayer, Option.orElse, isValidBatchSize,
        getValidNumber, jq, defaultBatch, MIN_BATCH_SIZE, MAX_BATCH_SIZE]

/-- Round half away from zero to two decimals, as the specification words
the rounding rule.  Stated for refinement comparison with the source's
`roundTo2Decimals`. -/
def roundHalfAwayFromZero2 (q : ℚ) : ℚ :=
  (if 0 ≤ q then (⌊q * 100 + 1 / 2⌋ : ℚ) else -(⌊-q * 100 + 1 / 2⌋ : ℚ)) / 100

/-- The C9 counterexample parameter set: rates 1, one operation costing
-1/8, batch size 1, all percentages 0, so the full-precision final EUR
amount is exactly the negative midpoint -0.125. -/
def c9Params : Params where
  rates := fun _ => some 1
  fabric := fun _ => none
  genel_gider := fun _ => none
  karlilik := fun _ => none
  KDV := 0
  komisyon := 0
  operations := [(("dikim" : String), fun _ => some (-1 / 8))]
  batch := fun _ => some 1

/-- C9, counterexample: on the negative midpoint -0.125 the engine's
`Math.round((v + ε) * 100) / 100` rounds toward positive infinity to
-0.12, while round-half-away-from-zero gives -0.13 — the claimed rounding
semantics does not hold for every monetary output. -/
theorem c9_rounding_counterexample :
    (calculateForRange Range.r0_50 c9Params).finalEur = -12 / 100 ∧
    roundHalfAwayFromZero2 (-1 / 8) = -13 / 100 ∧
    ((-12 : ℚ) / 100) ≠ -13 / 100 := by
  have hfe : finalEurOf c9Params Range.r0_50 = some (-1 / 8) := by
    norm_num [finalEurOf, taxableEurOf, kdvEurOf, commissionEurOf, genelGiderEurOf, karEurOf,
      hamMaliyetEurOf, perUnitEurOf, fabricCostEurOf, perUnitOpsEurOf, perUnitOpsTryOf,
      totalOpsTryOf, batchSizeOf, calculateOperationsCost, getFabricCost, jsOr,
      applyPercentage, safeDivision, getValidNumber, jq, jmul, jadd, PERCENTAGE_DIVISOR,
      c9Params]
  refine ⟨?_, ?_, by norm_num⟩
  · have hr : roundTo2Decimals (some (-1 / 8 : ℚ)) = -12 / 100 :=
      calc roundTo2Decimals (some (-1 / 8 : ℚ))
          = ((-12 : ℤ) : ℚ) / 100 := roundTo2_eval (-1 / 8) (-12)
            (by norm_num [numberEpsilon]) (by norm_num [numberEpsilon])
        _ = -12 / 100 := by norm_num
    show roundTo2Decimals (finalEurOf c9Params Range.r0_50) = -12 / 100
    rw [hfe]
    exact hr
  · rw [roundHalfAwayFromZero2, if_neg (by norm_num)]
    have h13 : -(-1 / 8 : ℚ) * 100 + 1 / 2 = 13 := by norm_num
    rw [h13]
    have hfl : ⌊(13 : ℚ)⌋ = (13 : ℤ) := Int.floor_eq_iff.mpr (by norm_num)
    rw [hfl]
    norm_num

/-- C9, amended: every monetary output field is produced by applying
`roundTo2Decimals` — `Math.round((v + 2^(-52)) * 100) / 100`, i.e. floor
of the epsilon-nudged value plus one half, a round-half-up — to the
full-precision intermediate of that field, so every output has exactly two
decimal places and no intermediate of the fourteen-step chain is
pre-rounded; on non-negative values the rule agrees with
round-half-away-from-zero applied to the epsilon-nudged value, but not at
negative midpoints. -/
theorem c9_rounding_amended (p : Params) (r : Range) :
    (∀ v : JVal, (roundTo2Decimals v * 100).den = 1) ∧
    ((calculateForRange r p).fabricCostEur = roundTo2Decimals (jq (fabricCostEurOf p)) ∧
      (calculateForRange r p).perUnitOpsTry = roundTo2Decimals (jq (perUnitOpsTryOf p r)) ∧
      (calculateForRange r p).perUnitOpsEur = roundTo2Decimals (jq (perUnitOpsEurOf p r)) ∧
      (calculateForRange r p).perUnitEur = roundTo2Decimals (jq (perUnitEurOf p r)) ∧
      (calculateForRange r p).hamMaliyetEur = roundTo2Decimals (hamMaliyetEurOf p r) ∧
      (calculateForRange r p).genelGiderEur = roundTo2Decimals (jq (genelGiderEurOf p r)) ∧
      (calculateForRange r p).karEur = roundTo2Decimals (jq (karEurOf p r)) ∧
      (calculateForRange r p).taxableEur = roundTo2Decimals (taxableEurOf p r) ∧
      (calculateForRange r p).kdvEur = roundTo2Decimals (jq (kdvEurOf p r)) ∧
      (calculateForRange r p).commissionEur = roundTo2Decimals (jq (commissionEurOf p r)) ∧
      (calculateForRange r p).finalEur = roundTo2Decimals (finalEurOf p r) ∧
      (calculateForRange r p).finalTry = roundTo2Decimals (finalTryOf p r) ∧
      (calculateForRange r p).finalUsd = roundTo2Decimals (jq (finalUsdOf p r)) ∧
      (calculateForRange r p).finalGbp = roundTo2Decimals (jq (finalGbpOf p r)) ∧
      (calculateForRange r p).perUnitFinalEur = roundTo2Decimals (jq (perUnitFinalEurOf p r)) ∧
      (calculateForRange r p).perUnitFinalTry = roundTo2Decimals (jq (perUnitFinalTryOf p r)) ∧
      (calculateForRange r p).perUnitFinalUsd = roundTo2Decimals (jq (perUnitFinalUsdOf p r)) ∧
      (calculateForRange r p).perUnitFinalGbp =
        roundTo2Decimals (jq (perUnitFinalGbpOf p r))) ∧
    (∀ q : ℚ, 0 ≤ q →
      roundTo2Decimals (jq q) = roundHalfAwayFromZero2 (q + numberEpsilon)) := by
  refine ⟨?_, ⟨rfl, rfl, rfl, rfl, rfl, rfl, rfl, rfl, rfl, rfl, rfl, rfl, rfl, rfl, rfl,
    rfl, rfl, rfl⟩, ?_⟩
  · intro v
    rw [roundTo2Decimals]
    rw [div_mul_cancel₀ _ (by norm_num : (100 : ℚ) ≠ 0)]
    exact Rat.den_intCast _
  · intro q hq
    have heps : (0 : ℚ) ≤ numberEpsilon := by norm_num [numberEpsilon]
    have hpos : 0 ≤ q + numberEpsilon := by linarith
    rw [roundTo2Decimals, mathRound, roundHalfAwayFromZero2, if_pos hpos]
    rfl

/-- C9, witness: the amended rounding identity applied at the concrete
non-negative value 1/8. -/
theorem c9_rounding_amended_witness :
    roundTo2Decimals (jq (1 / 8)) = roundHalfAwayFromZero2 (1 / 8 + numberEpsilon) :=
  (c9_rounding_amended c9Params Range.r0_50).2.2 (1 / 8) (by norm_num)
